import Mathlib

/-!
The chase / collision loop of `script.js` (bear-wants-princess).

A shallow embedding of the per-frame logic of `animate` (script.js, lines 493-633)
and of the three.js primitives it calls.

Conventions of the embedding:

* JavaScript numbers are exact rationals. The countdown timers only ever hold
  integers and are `Int`.
* `Math.sqrt`, `Math.cos`, `Math.sin` and `Math.PI` are fields of a `MathEnv`
  parameter; the value of `Math.random()` is part of the input of a frame
  (a frame calls it at most once).
* `collidables` is built once at start-up, from randomly placed trees among
  other things, and never changes: it is a parameter of every function.
* The state that `animate` reads and writes is the record `Session`; one call
  of `animate` is a function from the held keys, the random draw and the
  session to the next session together with a flag telling whether
  `location.reload()` was called.
* Rendering, the follow camera and the orbit controls read the positions and
  never write game state; they are left out. `lookAt` is recorded as the point
  the bear was last turned to.
-/

set_option autoImplicit false

namespace BearWantsPrincess

/-! ## three.js primitives -/

/-- The functions of `Math` that the frame uses. -/
structure MathEnv where
  PI : ℚ
  sqrt : ℚ → ℚ
  cos : ℚ → ℚ
  sin : ℚ → ℚ

/-- The class `THREE.Vector3`. -/
structure Vector3 where
  x : ℚ
  y : ℚ
  z : ℚ
deriving DecidableEq

/-- Method `a.add(v)`. -/
def Vector3.add (a v : Vector3) : Vector3 :=
  ⟨a.x + v.x, a.y + v.y, a.z + v.z⟩

/-- Method `a.sub(v)`. -/
def Vector3.sub (a v : Vector3) : Vector3 :=
  ⟨a.x - v.x, a.y - v.y, a.z - v.z⟩

/-- Method `r.subVectors(a, b)`. -/
def Vector3.subVectors (a b : Vector3) : Vector3 :=
  ⟨a.x - b.x, a.y - b.y, a.z - b.z⟩

/-- Method `v.multiplyScalar(s)`. -/
def Vector3.multiplyScalar (v : Vector3) (s : ℚ) : Vector3 :=
  ⟨v.x * s, v.y * s, v.z * s⟩

/-- Method `v.divideScalar(s)`, which three.js computes as `multiplyScalar(1 / s)`. -/
def Vector3.divideScalar (v : Vector3) (s : ℚ) : Vector3 :=
  v.multiplyScalar (1 / s)

/-- Method `v.length()`. -/
def Vector3.length (M : MathEnv) (v : Vector3) : ℚ :=
  M.sqrt (v.x * v.x + v.y * v.y + v.z * v.z)

/-- Method `v.normalize()`, that is `divideScalar(length() || 1)`. -/
def Vector3.normalize (M : MathEnv) (v : Vector3) : Vector3 :=
  v.divideScalar (if v.length M = 0 then 1 else v.length M)

/-- Method `a.distanceToSquared(v)`. -/
def Vector3.distanceToSquared (a v : Vector3) : ℚ :=
  (a.x - v.x) * (a.x - v.x) + (a.y - v.y) * (a.y - v.y) + (a.z - v.z) * (a.z - v.z)

/-- Method `a.distanceTo(v)`. -/
def Vector3.distanceTo (M : MathEnv) (a v : Vector3) : ℚ :=
  M.sqrt (a.distanceToSquared v)

/-- The class `THREE.Box3`: an axis-aligned box given by its two corners. -/
structure Box3 where
  min : Vector3
  max : Vector3
deriving DecidableEq

/-- Method `box.setFromCenterAndSize(center, size)`: the corners are the centre minus
and plus HALF of `size`. -/
def Box3.setFromCenterAndSize (center size : Vector3) : Box3 :=
  let halfSize := size.multiplyScalar (1 / 2)
  ⟨center.sub halfSize, center.add halfSize⟩

/-- Method `a.intersectsBox(box)`: the closed intervals overlap on each of the three axes. -/
def Box3.intersectsBox (a box : Box3) : Bool :=
  decide (box.max.x ≥ a.min.x) && decide (box.min.x ≤ a.max.x) &&
  decide (box.max.y ≥ a.min.y) && decide (box.min.y ≤ a.max.y) &&
  decide (box.max.z ≥ a.min.z) && decide (box.min.z ≤ a.max.z)

/-- Method `box.containsPoint(p)`. -/
def Box3.containsPoint (b : Box3) (p : Vector3) : Bool :=
  decide (p.x ≥ b.min.x) && decide (p.x ≤ b.max.x) &&
  decide (p.y ≥ b.min.y) && decide (p.y ≤ b.max.y) &&
  decide (p.z ≥ b.min.z) && decide (p.z ≤ b.max.z)

/-- Method `box.isEmpty()`: some upper bound lies below the lower bound. -/
def Box3.isEmpty (b : Box3) : Bool :=
  decide (b.max.x < b.min.x) || decide (b.max.y < b.min.y) || decide (b.max.z < b.min.z)

/-- Two boxes intersect as point sets: some point lies in both. -/
def Box3.Meets (a b : Box3) : Prop :=
  ∃ p : Vector3, a.containsPoint p = true ∧ b.containsPoint p = true

/-! ## Constants and collision query (script.js 493-516) -/

/-- The constant `const moveSpeed = 0.2`. -/
def moveSpeed : ℚ := 2 / 10

/-- The constant `const bearSpeed = 0.1`. -/
def bearSpeed : ℚ := 1 / 10

/-- The constant `const bearSize = 0.8` (local to `animate`). -/
def bearSize : ℚ := 8 / 10

/-- The literal `0.6` passed to `checkCollision` for the princess. -/
def princessSize : ℚ := 6 / 10

/-- The function `checkCollision(position, size)`: the box built around the candidate and
the loop over `collidables`. -/
def checkCollision (collidables : List Box3) (position : Vector3) (size : ℚ) : Bool :=
  let playerBox := Box3.setFromCenterAndSize (position.add ⟨0, 1, 0⟩) ⟨size, 2, size⟩
  collidables.any (fun box => playerBox.intersectsBox box)

/-- The query box in the words of the specification: height 2, centred 1 unit
above `c`, horizontal half-extent `h`, that is `x` in `[c.x - h, c.x + h]`,
`y` in `[c.y, c.y + 2]`, `z` in `[c.z - h, c.z + h]`. -/
def specQueryBox (c : Vector3) (h : ℚ) : Box3 :=
  ⟨⟨c.x - h, c.y, c.z - h⟩, ⟨c.x + h, c.y + 2, c.z + h⟩⟩

/-! ## Session state -/

/-- The `keys` record: the four arrow keys, each held or not. -/
structure Keys where
  ArrowUp : Bool
  ArrowDown : Bool
  ArrowLeft : Bool
  ArrowRight : Bool
deriving DecidableEq

/-- The two values of `bear.userData.state`. -/
inductive ChaseState where
  | CHASE
  | UNSTICK
deriving DecidableEq

/-- The state-machine fields of `bear.userData`, which `animate` creates together. -/
structure UserData where
  state : ChaseState
  unstickTimer : Int
  turboTimer : Int
  unstickDir : Vector3
deriving DecidableEq

/-- The bear: its position, the point it was last turned to by `lookAt`, the
fur colour and mouth scale (the visual state), and the state-machine fields,
`none` as long as `bear.userData.state` is unset. -/
structure Bear where
  position : Vector3
  lookTarget : Option Vector3
  furColor : Nat
  mouthScale : Vector3
  userData : Option UserData
deriving DecidableEq

/-- The princess: `princess.position` and `princess.rotation.y`. -/
structure Princess where
  position : Vector3
  rotationY : ℚ
deriving DecidableEq

/-- Everything `animate` reads and writes. -/
structure Session where
  princess : Princess
  bear : Bear
  gameStarted : Bool
deriving DecidableEq

/-- The input of one frame: the held keys and the value `Math.random()` returns
if the frame calls it. -/
structure FrameInput where
  keys : Keys
  random : ℚ

/-- Colour set by `setHex(0xFF0000)`. -/
def angryColor : Nat := 0xFF0000

/-- Colour set by `setHex(0x8B4513)`, also the colour the bear is created with. -/
def normalColor : Nat := 0x8B4513

/-- Scale set by `mouth.scale.set(1, 1, 1)`. -/
def angryMouth : Vector3 := ⟨1, 1, 1⟩

/-- Scale set by `mouth.scale.set(0.1, 0.1, 0.1)`, also the initial scale. -/
def normalMouth : Vector3 := ⟨1 / 10, 1 / 10, 1 / 10⟩

/-- The session right after the script has run: `createPrincess(0, 14)`,
`createBear(10, 10)`, `gameStarted = false`. -/
def initialSession : Session :=
  { princess := { position := ⟨0, 0, 14⟩, rotationY := 0 }
    bear := { position := ⟨10, 0, 10⟩, lookTarget := none, furColor := normalColor,
              mouthScale := normalMouth, userData := none }
    gameStarted := false }

/-! ## One frame (script.js 519-633) -/

/-- The candidate `nextPos` after the four key tests of lines 527-546, starting
from a clone of `princess.position`. -/
def princessNextPos (keys : Keys) (position : Vector3) : Vector3 :=
  let nextPos := position
  let nextPos := if keys.ArrowUp then { nextPos with z := nextPos.z - moveSpeed } else nextPos
  let nextPos := if keys.ArrowDown then { nextPos with z := nextPos.z + moveSpeed } else nextPos
  let nextPos := if keys.ArrowLeft then { nextPos with x := nextPos.x - moveSpeed } else nextPos
  let nextPos := if keys.ArrowRight then { nextPos with x := nextPos.x + moveSpeed } else nextPos
  nextPos

/-- The flag `moved` after the four key tests of lines 527-546. -/
def princessMoved (keys : Keys) : Bool :=
  let moved := false
  let moved := if keys.ArrowUp then true else moved
  let moved := if keys.ArrowDown then true else moved
  let moved := if keys.ArrowLeft then true else moved
  let moved := if keys.ArrowRight then true else moved
  moved

/-- The variable `rotation` after lines 525-552: the four single-key
assignments, then the four diagonal overrides. -/
def princessRotation (M : MathEnv) (keys : Keys) (rotationY : ℚ) : ℚ :=
  let rotation := rotationY
  let rotation := if keys.ArrowUp then M.PI else rotation
  let rotation := if keys.ArrowDown then 0 else rotation
  let rotation := if keys.ArrowLeft then -M.PI / 2 else rotation
  let rotation := if keys.ArrowRight then M.PI / 2 else rotation
  let rotation := if keys.ArrowUp && keys.ArrowLeft then -M.PI * 3 / 4 else rotation
  let rotation := if keys.ArrowUp && keys.ArrowRight then M.PI * 3 / 4 else rotation
  let rotation := if keys.ArrowDown && keys.ArrowLeft then -M.PI / 4 else rotation
  let rotation := if keys.ArrowDown && keys.ArrowRight then M.PI / 4 else rotation
  rotation

/-- The block "Princess Movement", lines 522-560: with a key held the rotation is
written, and the candidate is committed and `gameStarted` set when
`checkCollision(nextPos, 0.6)` is false. -/
def princessMovement (M : MathEnv) (collidables : List Box3) (keys : Keys)
    (s : Session) : Session :=
  let nextPos := princessNextPos keys s.princess.position
  let rotation := princessRotation M keys s.princess.rotationY
  if princessMoved keys then
    if !checkCollision collidables nextPos princessSize then
      { s with princess := { position := nextPos, rotationY := rotation }, gameStarted := true }
    else
      { s with princess := { s.princess with rotationY := rotation } }
  else
    s

/-- The fields written by lines 565-570 when `bear.userData.state` is unset. -/
def initUserData : UserData :=
  { state := ChaseState.CHASE, unstickTimer := 0, turboTimer := 0, unstickDir := ⟨0, 0, 0⟩ }

/-- The state-machine fields after the guard of lines 565-570: the existing
ones, or the freshly created ones when `bear.userData.state` is unset. -/
def stateVariables (bear : Bear) : UserData :=
  match bear.userData with
  | some ud => ud
  | none => initUserData

/-- Lines 565-570: the state variables are created when `bear.userData.state`
is unset, and left alone otherwise. -/
def initState (bear : Bear) : Bear :=
  { bear with userData := some (stateVariables bear) }

/-- The turbo step, lines 575-587: returns `currentSpeed` and the bear with
`turboTimer` and the visuals written. An unset `turboTimer` is not `> 0`. -/
def turboStep (bear : Bear) : ℚ × Bear :=
  match bear.userData with
  | some ud =>
    if ud.turboTimer > 0 then
      (bearSpeed * (5 / 2),
        { bear with furColor := angryColor, mouthScale := angryMouth,
                    userData := some { ud with turboTimer := ud.turboTimer - 1 } })
    else
      (bearSpeed, { bear with furColor := normalColor, mouthScale := normalMouth })
  | none => (bearSpeed, { bear with furColor := normalColor, mouthScale := normalMouth })

/-- The `targetPos` of the CHASE branch, lines 590-593. -/
def chaseTargetPos (M : MathEnv) (princessPos bearPos : Vector3) (speed : ℚ) : Vector3 :=
  let direction := (Vector3.subVectors princessPos bearPos).normalize M
  let moveVector := direction.multiplyScalar speed
  bearPos.add moveVector

/-- The `targetPos` of the UNSTICK branch, lines 609-610. -/
def unstickTargetPos (unstickDir bearPos : Vector3) (speed : ℚ) : Vector3 :=
  let moveVector := unstickDir.multiplyScalar speed
  bearPos.add moveVector

/-- The direction picked on a collision, lines 605-606 and 617-618. -/
def randomDir (M : MathEnv) (random : ℚ) : Vector3 :=
  let angle := random * M.PI * 2
  ⟨M.cos angle, 0, M.sin angle⟩

/-- The two branches of lines 589-626, run with the speed the turbo step chose.
With `state` unset neither branch is taken. -/
def bearMove (M : MathEnv) (collidables : List Box3) (random : ℚ)
    (princessPos : Vector3) (speed : ℚ) (bear : Bear) : Bear :=
  match bear.userData with
  | none => bear
  | some ud =>
    match ud.state with
    | ChaseState.CHASE =>
      let targetPos := chaseTargetPos M princessPos bear.position speed
      if !checkCollision collidables targetPos bearSize then
        { bear with position := targetPos, lookTarget := some princessPos }
      else
        { bear with userData := some { state := ChaseState.UNSTICK, unstickTimer := 20,
                                       turboTimer := 180, unstickDir := randomDir M random } }
    | ChaseState.UNSTICK =>
      let targetPos := unstickTargetPos ud.unstickDir bear.position speed
      let blocked := checkCollision collidables targetPos bearSize
      let unstickTimer := ud.unstickTimer - 1
      { bear with
        position := if blocked then bear.position else targetPos,
        lookTarget := if blocked then bear.lookTarget else some targetPos,
        userData := some { state := if unstickTimer ≤ 0 then ChaseState.CHASE
                                    else ChaseState.UNSTICK,
                           unstickTimer := unstickTimer,
                           turboTimer := ud.turboTimer,
                           unstickDir := if blocked then randomDir M random
                                         else ud.unstickDir } }

/-- The block "Bear Logic", lines 564-626: initialisation of the state variables, the
turbo step, then the CHASE or the UNSTICK branch. -/
def bearLogic (M : MathEnv) (collidables : List Box3) (random : ℚ)
    (princessPos : Vector3) (bear : Bear) : Bear :=
  let step := turboStep (initState bear)
  bearMove M collidables random princessPos step.1 step.2

/-- What one call of `animate` leaves behind: the session, and whether
`location.reload()` was called. -/
structure FrameResult where
  session : Session
  reload : Bool

/-- One call of `animate`, lines 519-633: princess movement, then, only if
`gameStarted`, the bear logic and the game-over test. -/
def animate (M : MathEnv) (collidables : List Box3) (input : FrameInput)
    (s : Session) : FrameResult :=
  let s1 := princessMovement M collidables input.keys s
  if s1.gameStarted then
    let bear := bearLogic M collidables input.random s1.princess.position s1.bear
    let distance := s1.princess.position.distanceTo M bear.position
    { session := { s1 with bear := bear }, reload := decide (distance < 3 / 2) }
  else
    { session := s1, reload := false }

/-- The session after a sequence of frames, one input per frame. -/
def runFrames (M : MathEnv) (collidables : List Box3) (inputs : List FrameInput)
    (s : Session) : Session :=
  inputs.foldl (fun acc input => (animate M collidables input acc).session) s


/-- The timers are non-negative, and positive for `unstickTimer` while in UNSTICK. -/
def TimersOk (ud : UserData) : Prop :=
  0 ≤ ud.unstickTimer ∧ 0 ≤ ud.turboTimer ∧
    (ud.state = ChaseState.UNSTICK → 1 ≤ ud.unstickTimer)

/-! ## Concrete data for evaluation -/

/-- A computable `Math`: the square root is exact on squares of rationals and
rounded down otherwise; sine and cosine are truncated power series. -/
def sampleMath : MathEnv :=
  { PI := 355 / 113
    sqrt := fun q => (Nat.sqrt (q.num.toNat * q.den) : ℚ) / q.den
    cos := fun a => 1 - a * a / 2
    sin := fun a => a - a * a * a / 6 }

/-- The four boundary walls (lines 78-100), a `BoxGeometry` each, unrotated:
the boxes `setFromObject` yields for them. -/
def boundaryWalls : List Box3 :=
  [ Box3.setFromCenterAndSize ⟨0, 3 / 2, -40⟩ ⟨80, 3, 1⟩,
    Box3.setFromCenterAndSize ⟨0, 3 / 2, 40⟩ ⟨80, 3, 1⟩,
    Box3.setFromCenterAndSize ⟨40, 3 / 2, 0⟩ ⟨1, 3, 80⟩,
    Box3.setFromCenterAndSize ⟨-40, 3 / 2, 0⟩ ⟨1, 3, 80⟩ ]

/-- The keep body (lines 312-320, group at `(0, 0, -2)`), unrotated. -/
def keepBox : Box3 :=
  Box3.setFromCenterAndSize ⟨0, 5, -2⟩ ⟨8, 10, 8⟩

/-- The keep and the boundary walls: part of every collision index the script builds. -/
def sampleIndex : List Box3 := keepBox :: boundaryWalls

/-- No key held. -/
def noKeys : Keys := ⟨false, false, false, false⟩

/-- A started session in which the bear, in CHASE with 160 turbo frames left,
stands right of the keep and the princess left of it. -/
def besideKeepSession : Session :=
  { princess := { position := ⟨-5, 0, -2⟩, rotationY := 0 }
    bear := { position := ⟨9 / 2, 0, -2⟩, lookTarget := none, furColor := angryColor,
              mouthScale := angryMouth,
              userData := some { state := ChaseState.CHASE, unstickTimer := 0,
                                 turboTimer := 160, unstickDir := ⟨1, 0, 0⟩ } }
    gameStarted := true }

/-- A started session in the middle of an UNSTICK episode: the bear right of the
keep, heading away from it, `unstickTimer = 1`, `turboTimer = 161`. -/
def unstickSession : Session :=
  { princess := { position := ⟨-5, 0, -2⟩, rotationY := 0 }
    bear := { position := ⟨9 / 2, 0, -2⟩, lookTarget := none, furColor := angryColor,
              mouthScale := angryMouth,
              userData := some { state := ChaseState.UNSTICK, unstickTimer := 1,
                                 turboTimer := 161, unstickDir := ⟨1, 0, 0⟩ } }
    gameStarted := true }

/-- Only ArrowDown held. -/
def downKey : Keys := ⟨false, true, false, false⟩

/-- A started session with the princess just in front of the south wall. -/
def southWallSession : Session :=
  { princess := { position := ⟨0, 0, 391 / 10⟩, rotationY := 0 }
    bear := { position := ⟨10, 0, 10⟩, lookTarget := none, furColor := normalColor,
              mouthScale := normalMouth, userData := some initUserData }
    gameStarted := true }

/-- ArrowUp and ArrowDown held together. -/
def upAndDownKeys : Keys := ⟨true, true, false, false⟩

/-- Only ArrowUp held. -/
def upKey : Keys := ⟨true, false, false, false⟩

/-- A started session with the bear in CHASE at its start position, no turbo,
and the princess 5 units away along a 3-4-5 triangle, in open ground. -/
def openGroundSession : Session :=
  { princess := { position := ⟨13, 0, 14⟩, rotationY := 0 }
    bear := { position := ⟨10, 0, 10⟩, lookTarget := none, furColor := normalColor,
              mouthScale := normalMouth, userData := some initUserData }
    gameStarted := true }

/-- The session a blocked CHASE move leaves behind: the bear right of the keep,
in UNSTICK with `unstickTimer = 20` and `turboTimer = 180`. -/
def episodeStartSession : Session :=
  { princess := { position := ⟨-5, 0, -2⟩, rotationY := 0 }
    bear := { position := ⟨9 / 2, 0, -2⟩, lookTarget := none, furColor := angryColor,
              mouthScale := angryMouth,
              userData := some { state := ChaseState.UNSTICK, unstickTimer := 20,
                                 turboTimer := 180, unstickDir := ⟨0, 0, 1⟩ } }
    gameStarted := true }

/-! # Properties -/

/-! ## Frame lemmas -/

theorem princessMovement_bear (M : MathEnv) (cols : List Box3) (keys : Keys) (s : Session) :
    (princessMovement M cols keys s).bear = s.bear := by
  simp only [princessMovement]
  split_ifs <;> rfl

theorem animate_bear_of_started (M : MathEnv) (cols : List Box3) (input : FrameInput)
    (s : Session) (h : (princessMovement M cols input.keys s).gameStarted = true) :
    (animate M cols input s).session.bear =
      bearLogic M cols input.random (princessMovement M cols input.keys s).princess.position
        s.bear := by
  simp [animate, h, princessMovement_bear]


theorem animate_princess (M : MathEnv) (cols : List Box3) (input : FrameInput) (s : Session) :
    (animate M cols input s).session.princess = (princessMovement M cols input.keys s).princess := by
  simp only [animate]
  split_ifs <;> rfl

theorem princessMoved_eq_true (keys : Keys) :
    princessMoved keys = true ↔
      (keys.ArrowUp = true ∨ keys.ArrowDown = true ∨ keys.ArrowLeft = true ∨
        keys.ArrowRight = true) := by
  rcases keys with ⟨u, d, l, r⟩
  cases u <;> cases d <;> cases l <;> cases r <;> simp [princessMoved]

/-- A rejected candidate stays rejected: the position, and so the candidate, is
the same on the next frame with the same keys. -/
theorem princessMovement_position_of_blocked (M : MathEnv) (cols : List Box3) (keys : Keys)
    (s : Session)
    (hblocked : checkCollision cols (princessNextPos keys s.princess.position) princessSize
      = true) :
    (princessMovement M cols keys s).princess.position = s.princess.position := by
  simp only [princessMovement]
  split_ifs <;> simp_all

theorem runFrames_cons (M : MathEnv) (cols : List Box3) (input : FrameInput)
    (inputs : List FrameInput) (s : Session) :
    runFrames M cols (input :: inputs) s =
      runFrames M cols inputs (animate M cols input s).session := rfl

theorem runFrames_append (M : MathEnv) (cols : List Box3) (pre post : List FrameInput)
    (s : Session) :
    runFrames M cols (pre ++ post) s = runFrames M cols post (runFrames M cols pre s) := by
  simp [runFrames, List.foldl_append]

theorem runFrames_position_of_blocked (M : MathEnv) (cols : List Box3) (keys : Keys)
    (inputs : List FrameInput) (hkeys : ∀ i ∈ inputs, i.keys = keys) (s : Session)
    (hblocked : checkCollision cols (princessNextPos keys s.princess.position) princessSize
      = true) :
    (runFrames M cols inputs s).princess.position = s.princess.position := by
  induction inputs generalizing s with
  | nil => rfl
  | cons i rest ih =>
    have hi : i.keys = keys := hkeys i (List.mem_cons_self i rest)
    have hstep : (animate M cols i s).session.princess.position = s.princess.position := by
      rw [animate_princess, hi]
      exact princessMovement_position_of_blocked M cols keys s hblocked
    rw [runFrames_cons, ih (fun j hj => hkeys j (List.mem_cons_of_mem i hj)) _
      (by rw [hstep]; exact hblocked), hstep]

/-! ## Boxes -/

/-- Two non-empty closed intervals overlap exactly when they share a point. -/
theorem interval_overlap_iff (a₁ a₂ b₁ b₂ : ℚ) (ha : a₁ ≤ a₂) (hb : b₁ ≤ b₂) :
    (b₂ ≥ a₁ ∧ b₁ ≤ a₂) ↔ ∃ t, (t ≥ a₁ ∧ t ≤ a₂) ∧ (t ≥ b₁ ∧ t ≤ b₂) := by
  constructor
  · rintro ⟨h1, h2⟩
    refine ⟨max a₁ b₁, ⟨le_max_left _ _, max_le ha h2⟩, ⟨le_max_right _ _, max_le h1 hb⟩⟩
  · rintro ⟨t, ⟨h1, h2⟩, ⟨h3, h4⟩⟩
    exact ⟨le_trans h1 h4, le_trans h3 h2⟩

/-- For non-empty boxes `intersectsBox` decides whether the boxes share a point. -/
theorem intersectsBox_iff_meets (a b : Box3) (ha : a.isEmpty = false) (hb : b.isEmpty = false) :
    a.intersectsBox b = true ↔ a.Meets b := by
  simp only [Box3.isEmpty, Bool.or_eq_false_iff, decide_eq_false_iff_not, not_lt] at ha hb
  obtain ⟨⟨hax, hay⟩, haz⟩ := ha
  obtain ⟨⟨hbx, hby⟩, hbz⟩ := hb
  simp only [Box3.intersectsBox, Box3.Meets, Box3.containsPoint, Bool.and_eq_true,
    decide_eq_true_eq]
  constructor
  · rintro ⟨⟨⟨⟨⟨h1, h2⟩, h3⟩, h4⟩, h5⟩, h6⟩
    obtain ⟨tx, htx, htx'⟩ := (interval_overlap_iff _ _ _ _ hax hbx).1 ⟨h1, h2⟩
    obtain ⟨ty, hty, hty'⟩ := (interval_overlap_iff _ _ _ _ hay hby).1 ⟨h3, h4⟩
    obtain ⟨tz, htz, htz'⟩ := (interval_overlap_iff _ _ _ _ haz hbz).1 ⟨h5, h6⟩
    exact ⟨⟨tx, ty, tz⟩, ⟨⟨⟨⟨⟨htx.1, htx.2⟩, hty.1⟩, hty.2⟩, htz.1⟩, htz.2⟩,
      ⟨⟨⟨⟨⟨htx'.1, htx'.2⟩, hty'.1⟩, hty'.2⟩, htz'.1⟩, htz'.2⟩⟩
  · rintro ⟨p, ⟨⟨⟨⟨⟨h1, h2⟩, h3⟩, h4⟩, h5⟩, h6⟩, ⟨⟨⟨⟨⟨g1, g2⟩, g3⟩, g4⟩, g5⟩, g6⟩⟩
    exact ⟨⟨⟨⟨⟨le_trans h1 g2, le_trans g1 h2⟩, le_trans h3 g4⟩, le_trans g3 h4⟩,
      le_trans h5 g6⟩, le_trans g5 h6⟩

/-- The box `checkCollision` builds: its horizontal half-extent is half of `size`. -/
theorem playerBox_eq (c : Vector3) (size : ℚ) :
    Box3.setFromCenterAndSize (c.add ⟨0, 1, 0⟩) ⟨size, 2, size⟩ = specQueryBox c (size / 2) := by
  simp only [Box3.setFromCenterAndSize, specQueryBox, Vector3.add, Vector3.sub,
    Vector3.multiplyScalar, Box3.mk.injEq, Vector3.mk.injEq]
  refine ⟨⟨?_, ?_, ?_⟩, ⟨?_, ?_, ?_⟩⟩ <;> ring

theorem specQueryBox_nonempty (c : Vector3) (h : ℚ) (hh : 0 ≤ h) :
    (specQueryBox c h).isEmpty = false := by
  simp only [Box3.isEmpty, specQueryBox, Bool.or_eq_false_iff, decide_eq_false_iff_not, not_lt]
  refine ⟨⟨?_, ?_⟩, ?_⟩ <;> linarith

theorem checkCollision_iff (cols : List Box3) (c : Vector3) (size : ℚ) (hsize : 0 ≤ size)
    (hcols : ∀ b ∈ cols, b.isEmpty = false) :
    checkCollision cols c size = true ↔ ∃ b ∈ cols, (specQueryBox c (size / 2)).Meets b := by
  simp only [checkCollision, playerBox_eq, List.any_eq_true]
  have hq := specQueryBox_nonempty c (size / 2) (by linarith)
  constructor
  · rintro ⟨b, hb, h⟩
    exact ⟨b, hb, (intersectsBox_iff_meets _ b hq (hcols b hb)).1 h⟩
  · rintro ⟨b, hb, h⟩
    exact ⟨b, hb, (intersectsBox_iff_meets _ b hq (hcols b hb)).2 h⟩

/-! ## Bear logic -/

/-- The two branches never touch the fur colour or the mouth. -/
theorem bearMove_visuals (M : MathEnv) (cols : List Box3) (random : ℚ) (pp : Vector3)
    (speed : ℚ) (bear : Bear) :
    (bearMove M cols random pp speed bear).furColor = bear.furColor ∧
    (bearMove M cols random pp speed bear).mouthScale = bear.mouthScale := by
  rcases bear with ⟨pos, look, fur, mouth, ud⟩
  cases ud with
  | none => exact ⟨rfl, rfl⟩
  | some ud =>
    rcases ud with ⟨st, ut, tt, dir⟩
    cases st
    · simp only [bearMove]
      split_ifs <;> exact ⟨rfl, rfl⟩
    · exact ⟨rfl, rfl⟩

/-! ## Frames before the game has started -/

theorem animate_gameStarted (M : MathEnv) (cols : List Box3) (input : FrameInput) (s : Session) :
    (animate M cols input s).session.gameStarted =
      (princessMovement M cols input.keys s).gameStarted := by
  simp only [animate]
  split_ifs <;> rfl

/-- With `gameStarted` false after the princess's move, the frame has changed
nothing but possibly her rotation, and has not called `location.reload()`. -/
theorem animate_of_not_started (M : MathEnv) (cols : List Box3) (input : FrameInput)
    (s : Session) (h : (princessMovement M cols input.keys s).gameStarted = false) :
    s.gameStarted = false ∧
    (animate M cols input s).session.princess.position = s.princess.position ∧
    (animate M cols input s).session.bear = s.bear ∧
    (animate M cols input s).reload = false := by
  have hb := princessMovement_bear M cols input.keys s
  simp only [animate, h, Bool.false_eq_true, if_false]
  refine ⟨?_, ?_, hb, trivial⟩
  · revert h
    simp only [princessMovement]
    split_ifs <;> simp
  · revert h
    simp only [princessMovement]
    split_ifs <;> simp

theorem runFrames_snoc (M : MathEnv) (cols : List Box3) (pre : List FrameInput)
    (input : FrameInput) (s : Session) :
    runFrames M cols (pre ++ [input]) s =
      (animate M cols input (runFrames M cols pre s)).session := by
  simp [runFrames, List.foldl_append]

/-- As long as `gameStarted` is false, princess and bear are where the script put them. -/
theorem runFrames_of_not_started (M : MathEnv) (cols : List Box3) (inputs : List FrameInput)
    (h : (runFrames M cols inputs initialSession).gameStarted = false) :
    (runFrames M cols inputs initialSession).princess.position = initialSession.princess.position ∧
    (runFrames M cols inputs initialSession).bear = initialSession.bear := by
  induction inputs using List.reverseRecOn with
  | nil => exact ⟨rfl, rfl⟩
  | append_singleton pre input ih =>
    rw [runFrames_snoc] at h ⊢
    rw [animate_gameStarted] at h
    obtain ⟨h0, hp, hb, _⟩ := animate_of_not_started M cols input _ h
    obtain ⟨ihp, ihb⟩ := ih h0
    exact ⟨hp.trans ihp, hb.trans ihb⟩

/-- The only way `gameStarted` turns true: a key is held and the candidate is
not blocked. -/
theorem princessMovement_gameStarted (M : MathEnv) (cols : List Box3) (keys : Keys)
    (s : Session) :
    (princessMovement M cols keys s).gameStarted = true ↔
      s.gameStarted = true ∨
        (princessMoved keys = true ∧
          checkCollision cols (princessNextPos keys s.princess.position) princessSize = false) := by
  simp only [princessMovement]
  split_ifs with h1 h2
  · simp_all
  · simp_all
  · simp_all

/-! ## Timers -/

/-- The state variables after the bear logic, spelled out by cases: turbo step,
then the branch taken. -/
theorem bearLogic_timersOk (M : MathEnv) (cols : List Box3) (random : ℚ) (pp : Vector3)
    (bear : Bear) (h : TimersOk (stateVariables bear)) :
    TimersOk (stateVariables (bearLogic M cols random pp bear)) := by
  obtain ⟨h1, h2, h3⟩ := h
  generalize hud : stateVariables bear = ud at h1 h2 h3
  rcases ud with ⟨st, ut, tt, dir⟩
  simp only at h1 h2 h3
  by_cases ht : tt > 0 <;> cases st <;>
    simp only [bearLogic, bearMove, turboStep, initState, hud, ht, if_true, if_false] <;>
    (try split_ifs) <;>
    simp_all [TimersOk, stateVariables] <;>
    omega

theorem animate_timersOk (M : MathEnv) (cols : List Box3) (input : FrameInput) (s : Session)
    (h : TimersOk (stateVariables s.bear)) :
    TimersOk (stateVariables (animate M cols input s).session.bear) := by
  by_cases hs : (princessMovement M cols input.keys s).gameStarted = true
  · rw [animate_bear_of_started M cols input s hs]
    exact bearLogic_timersOk M cols _ _ s.bear h
  · rw [(animate_of_not_started M cols input s (by simpa using hs)).2.2.1]
    exact h

theorem runFrames_timersOk (M : MathEnv) (cols : List Box3) (inputs : List FrameInput)
    (s : Session) (h : TimersOk (stateVariables s.bear)) :
    TimersOk (stateVariables (runFrames M cols inputs s).bear) := by
  induction inputs generalizing s with
  | nil => exact h
  | cons i rest ih =>
    rw [runFrames_cons]
    exact ih _ (animate_timersOk M cols i s h)

/-! ## The CHASE step -/

/-- Two distinct points have a positive squared distance. -/
theorem subVectors_sq_pos (a b : Vector3) (h : a ≠ b) :
    0 < (Vector3.subVectors a b).x * (Vector3.subVectors a b).x +
      (Vector3.subVectors a b).y * (Vector3.subVectors a b).y +
      (Vector3.subVectors a b).z * (Vector3.subVectors a b).z := by
  rcases a with ⟨ax, ay, az⟩
  rcases b with ⟨bx, b_y, bz⟩
  simp only [Vector3.subVectors]
  by_contra hn
  have hx : ax - bx = 0 := by nlinarith [sq_nonneg (ax - bx), sq_nonneg (ay - b_y), sq_nonneg (az - bz)]
  have hy : ay - b_y = 0 := by nlinarith [sq_nonneg (ax - bx), sq_nonneg (ay - b_y), sq_nonneg (az - bz)]
  have hz : az - bz = 0 := by nlinarith [sq_nonneg (ax - bx), sq_nonneg (ay - b_y), sq_nonneg (az - bz)]
  apply h
  rw [sub_eq_zero] at hx hy hz
  rw [hx, hy, hz]

/-- The position after the bear logic when the bear is in CHASE and the
candidate is free: the candidate. -/
theorem bearLogic_position_of_chase_free (M : MathEnv) (cols : List Box3) (random : ℚ)
    (pp : Vector3) (bear : Bear)
    (hchase : (stateVariables bear).state = ChaseState.CHASE)
    (hfree : checkCollision cols
      (chaseTargetPos M pp bear.position (turboStep (initState bear)).1) bearSize = false) :
    (bearLogic M cols random pp bear).position =
      chaseTargetPos M pp bear.position (turboStep (initState bear)).1 := by
  generalize hud : stateVariables bear = ud at hchase
  rcases ud with ⟨st, ut, tt, dir⟩
  simp only at hchase
  subst hchase
  by_cases ht : tt > 0
  · simp only [bearLogic, bearMove, turboStep, initState, hud, ht, if_true] at hfree ⊢
    simp [hfree]
  · simp only [bearLogic, bearMove, turboStep, initState, hud, ht, if_false] at hfree ⊢
    simp [hfree]

/-- The speed the turbo step hands to the branches is one of the two speeds. -/
theorem turboStep_speed (bear : Bear) :
    (turboStep (initState bear)).1 = 1 / 10 ∨ (turboStep (initState bear)).1 = 25 / 100 := by
  have hfast : bearSpeed * (5 / 2) = 25 / 100 := by norm_num [bearSpeed]
  have hslow : bearSpeed = 1 / 10 := rfl
  by_cases ht : (stateVariables bear).turboTimer > 0
  · right
    simp [turboStep, initState, ht, hfast]
  · left
    simp [turboStep, initState, ht, hslow]

/-! ## The UNSTICK episode -/

/-- Once `gameStarted` is true every frame updates the bear. -/
theorem princessMovement_started_of_started (M : MathEnv) (cols : List Box3) (keys : Keys)
    (s : Session) (h : s.gameStarted = true) :
    (princessMovement M cols keys s).gameStarted = true :=
  (princessMovement_gameStarted M cols keys s).2 (Or.inl h)

/-- The state variables after the bear logic when the bear was in UNSTICK. -/
theorem bearLogic_userData_of_unstick (M : MathEnv) (cols : List Box3) (random : ℚ)
    (pp : Vector3) (bear : Bear) (ud : UserData)
    (hud : bear.userData = some ud) (hst : ud.state = ChaseState.UNSTICK) :
    ∃ dir : Vector3, (bearLogic M cols random pp bear).userData = some
      { state := if ud.unstickTimer - 1 ≤ 0 then ChaseState.CHASE else ChaseState.UNSTICK,
        unstickTimer := ud.unstickTimer - 1,
        turboTimer := if ud.turboTimer > 0 then ud.turboTimer - 1 else ud.turboTimer,
        unstickDir := dir } := by
  have hsv : stateVariables bear = ud := by simp [stateVariables, hud]
  rcases ud with ⟨st, ut, tt, dir⟩
  simp only at hst
  subst hst
  by_cases ht : tt > 0
  · simp only [bearLogic, bearMove, turboStep, initState, hsv, ht, if_true]
    exact ⟨_, rfl⟩
  · simp only [bearLogic, bearMove, turboStep, initState, hsv, ht, if_false]
    exact ⟨_, rfl⟩

/-- The timers along an episode: after `n ≤ 20` frames from (UNSTICK, 20, 180)
they are `20 - n` and `180 - n`, and the state is CHASE only for `n = 20`. -/
theorem runFrames_episode (M : MathEnv) (cols : List Box3) (s : Session) (ud : UserData)
    (hstarted : s.gameStarted = true) (hud : s.bear.userData = some ud)
    (hst : ud.state = ChaseState.UNSTICK) (hut : ud.unstickTimer = 20)
    (htt : ud.turboTimer = 180) (inputs : List FrameInput) (hlen : inputs.length ≤ 20) :
    (runFrames M cols inputs s).gameStarted = true ∧
    ∃ ud' : UserData, (runFrames M cols inputs s).bear.userData = some ud' ∧
      ud'.unstickTimer = 20 - inputs.length ∧ ud'.turboTimer = 180 - inputs.length ∧
      ud'.state = (if inputs.length = 20 then ChaseState.CHASE else ChaseState.UNSTICK) := by
  induction inputs using List.reverseRecOn with
  | nil => exact ⟨hstarted, ud, hud, by simp [hut], by simp [htt], by simp [hst]⟩
  | append_singleton pre input ih =>
    have hpre : pre.length < 20 := by
      simp only [List.length_append, List.length_singleton] at hlen
      omega
    obtain ⟨hs, ud1, hud1, h1, h2, h3⟩ := ih (le_of_lt hpre)
    have hne : pre.length ≠ 20 := ne_of_lt hpre
    rw [if_neg hne] at h3
    have hs' := princessMovement_started_of_started M cols input.keys _ hs
    rw [runFrames_snoc]
    refine ⟨by rw [animate_gameStarted]; exact hs', ?_⟩
    rw [animate_bear_of_started M cols input _ hs']
    obtain ⟨dir, hdir⟩ := bearLogic_userData_of_unstick M cols input.random
      (princessMovement M cols input.keys (runFrames M cols pre s)).princess.position
      (runFrames M cols pre s).bear ud1 hud1 h3
    have hpos : ud1.turboTimer > 0 := by rw [h2]; omega
    refine ⟨_, hdir, ?_, ?_, ?_⟩
    · simp only [List.length_append, List.length_singleton, h1]
      push_cast
      ring
    · have hdec : (if ud1.turboTimer > 0 then ud1.turboTimer - 1 else ud1.turboTimer) =
          ud1.turboTimer - 1 := if_pos hpos
      show (if ud1.turboTimer > 0 then ud1.turboTimer - 1 else ud1.turboTimer) = _
      rw [hdec, h2, List.length_append, List.length_singleton]
      push_cast
      ring
    · simp only [List.length_append, List.length_singleton, h1]
      by_cases h20 : pre.length + 1 = 20
      · rw [if_pos h20, if_pos (by omega)]
      · rw [if_neg h20, if_neg (by omega)]
/-- C1. A frame that updates the bear while it is in CHASE (its state variables,
created on the first update, say CHASE) and whose candidate move
`checkCollision(targetPos, 0.8)` reports as blocked ends with the bear in UNSTICK,
`unstickTimer = 20` and `turboTimer = 180`, whatever `turboTimer` was before. -/
theorem chase_blocked_enters_unstick (M : MathEnv) (cols : List Box3) (input : FrameInput)
    (s : Session)
    (hstarted : (princessMovement M cols input.keys s).gameStarted = true)
    (hchase : (stateVariables s.bear).state = ChaseState.CHASE)
    (hblocked : checkCollision cols
      (chaseTargetPos M (princessMovement M cols input.keys s).princess.position
        s.bear.position (turboStep (initState s.bear)).1) (8 / 10) = true) :
    ∃ ud, (animate M cols input s).session.bear.userData = some ud ∧
      ud.state = ChaseState.UNSTICK ∧ ud.unstickTimer = 20 ∧ ud.turboTimer = 180 := by
  rw [animate_bear_of_started M cols input s hstarted]
  have h8 : bearSize = 8 / 10 := rfl
  by_cases ht : (stateVariables s.bear).turboTimer > 0
  · simp [bearLogic, bearMove, turboStep, initState, ht, hchase, h8] at hblocked ⊢
    simp [hblocked]
  · simp [bearLogic, bearMove, turboStep, initState, ht, hchase, h8] at hblocked ⊢
    simp [hblocked]

theorem chase_blocked_enters_unstick_witness :
    (stateVariables besideKeepSession.bear).turboTimer = 160 ∧
    ∃ ud, (animate sampleMath sampleIndex ⟨noKeys, 1 / 3⟩ besideKeepSession).session.bear.userData
        = some ud ∧
      ud.state = ChaseState.UNSTICK ∧ ud.unstickTimer = 20 ∧ ud.turboTimer = 180 :=
  ⟨by decide!, chase_blocked_enters_unstick sampleMath sampleIndex ⟨noKeys, 1 / 3⟩ besideKeepSession
    (by decide!) (by decide!) (by decide!)⟩

/-- C2. A frame that updates the bear while it is in UNSTICK leaves
`unstickTimer` one lower than before, blocked or not; the state afterwards is
CHASE exactly when the decremented timer is `≤ 0` (which, for a timer that was
at least 1 as it always is in UNSTICK, means it equals 0) and UNSTICK
otherwise; and `turboTimer` is what the turbo step of the frame left: one less
if it was positive, unchanged if not. -/
theorem unstick_frame_countdown (M : MathEnv) (cols : List Box3) (input : FrameInput)
    (s : Session) (ud : UserData)
    (hstarted : (princessMovement M cols input.keys s).gameStarted = true)
    (hud : s.bear.userData = some ud)
    (hunstick : ud.state = ChaseState.UNSTICK) :
    ∃ ud', (animate M cols input s).session.bear.userData = some ud' ∧
      ud'.unstickTimer = ud.unstickTimer - 1 ∧
      (ud'.state = ChaseState.CHASE ↔ ud'.unstickTimer ≤ 0) ∧
      (ud'.state = ChaseState.UNSTICK ↔ ¬ ud'.unstickTimer ≤ 0) ∧
      (1 ≤ ud.unstickTimer → (ud'.state = ChaseState.CHASE ↔ ud'.unstickTimer = 0)) ∧
      ud'.turboTimer = (if ud.turboTimer > 0 then ud.turboTimer - 1 else ud.turboTimer) := by
  rw [animate_bear_of_started M cols input s hstarted]
  have hsv : stateVariables s.bear = ud := by simp [stateVariables, hud]
  by_cases ht : ud.turboTimer > 0 <;> by_cases hz : ud.unstickTimer - 1 ≤ 0 <;>
    simp [bearLogic, bearMove, turboStep, initState, hsv, ht, hunstick, hz] <;> omega

theorem unstick_frame_countdown_witness :
    ∃ ud', (animate sampleMath sampleIndex ⟨noKeys, 1 / 3⟩ unstickSession).session.bear.userData
        = some ud' ∧
      ud'.unstickTimer = (1 : Int) - 1 ∧
      (ud'.state = ChaseState.CHASE ↔ ud'.unstickTimer ≤ 0) ∧
      (ud'.state = ChaseState.UNSTICK ↔ ¬ ud'.unstickTimer ≤ 0) ∧
      ((1 : Int) ≤ 1 → (ud'.state = ChaseState.CHASE ↔ ud'.unstickTimer = 0)) ∧
      ud'.turboTimer = (if (161 : Int) > 0 then 161 - 1 else 161) :=
  unstick_frame_countdown sampleMath sampleIndex ⟨noKeys, 1 / 3⟩ unstickSession
    { state := ChaseState.UNSTICK, unstickTimer := 1, turboTimer := 161, unstickDir := ⟨1, 0, 0⟩ }
    (by decide!) rfl rfl

/-- C3. On a frame with at least one arrow key held, the princess ends at the
candidate `nextPos` when `checkCollision(nextPos, 0.6)` is false and where she
was when it is true; and a rejected move stays rejected, so any number of
further frames with the same keys held leave her position unchanged. -/
theorem princess_commit_iff_unblocked (M : MathEnv) (cols : List Box3) (input : FrameInput)
    (s : Session)
    (hkey : input.keys.ArrowUp = true ∨ input.keys.ArrowDown = true ∨
      input.keys.ArrowLeft = true ∨ input.keys.ArrowRight = true) :
    (animate M cols input s).session.princess.position =
      (if checkCollision cols (princessNextPos input.keys s.princess.position) (6 / 10) = true
       then s.princess.position
       else princessNextPos input.keys s.princess.position) ∧
    (checkCollision cols (princessNextPos input.keys s.princess.position) (6 / 10) = true →
      ∀ inputs : List FrameInput, (∀ i ∈ inputs, i.keys = input.keys) →
        (runFrames M cols inputs s).princess.position = s.princess.position) := by
  have h6 : princessSize = 6 / 10 := rfl
  have hmoved : princessMoved input.keys = true := (princessMoved_eq_true input.keys).2 hkey
  constructor
  · rw [animate_princess]
    simp only [princessMovement, hmoved, h6]
    split_ifs <;> simp_all
  · intro hblocked inputs hkeys
    exact runFrames_position_of_blocked M cols input.keys inputs hkeys s (by rw [h6]; exact hblocked)

theorem princess_commit_iff_unblocked_witness :
    (runFrames sampleMath sampleIndex [⟨downKey, 0⟩, ⟨downKey, 1 / 2⟩, ⟨downKey, 1 / 3⟩]
      southWallSession).princess.position = southWallSession.princess.position :=
  (princess_commit_iff_unblocked sampleMath sampleIndex ⟨downKey, 0⟩ southWallSession
    (Or.inr (Or.inl rfl))).2 (by decide!) _ (by simp)

/-- C4, as stated, fails: with the princess's argument 0.6 taken as a
half-extent, the box around `(0, 0, 39)` reaches `z = 39.6` and meets the south
boundary wall (which starts at `z = 39.5`), yet `checkCollision` reports the
candidate free, because its box only reaches `z = 39.3`. -/
theorem checkCollision_argument_is_not_half_extent :
    checkCollision boundaryWalls ⟨0, 0, 39⟩ (6 / 10) = false ∧
    ∃ b ∈ boundaryWalls, (specQueryBox ⟨0, 0, 39⟩ (6 / 10)).Meets b := by
  refine ⟨by decide!, Box3.setFromCenterAndSize ⟨0, 3 / 2, 40⟩ ⟨80, 3, 1⟩, ?_,
    ⟨⟨0, 1, 791 / 20⟩, by decide!, by decide!⟩⟩
  simp [boundaryWalls]

/-- C4, amended. For a non-negative `size` and an index of non-empty boxes,
`checkCollision(c, size)` is true exactly when the box `x` in
`[c.x - size/2, c.x + size/2]`, `y` in `[c.y, c.y + 2]`, `z` in
`[c.z - size/2, c.z + size/2]` shares a point with a box of the index: the
argument is the full horizontal extent. The princess (argument 0.6) is tested
with half-extent 0.3 and the bear (argument 0.8) with half-extent 0.4. -/
theorem checkCollision_iff_box_of_half_size (cols : List Box3) (c : Vector3) (size : ℚ)
    (hsize : 0 ≤ size) (hcols : ∀ b ∈ cols, b.isEmpty = false) :
    (checkCollision cols c size = true ↔ ∃ b ∈ cols, (specQueryBox c (size / 2)).Meets b) ∧
    (checkCollision cols c princessSize = true ↔
      ∃ b ∈ cols, (specQueryBox c (3 / 10)).Meets b) ∧
    (checkCollision cols c bearSize = true ↔
      ∃ b ∈ cols, (specQueryBox c (4 / 10)).Meets b) := by
  refine ⟨checkCollision_iff cols c size hsize hcols, ?_, ?_⟩
  · have h := checkCollision_iff cols c princessSize (by norm_num [princessSize]) hcols
    have e : princessSize / 2 = 3 / 10 := by norm_num [princessSize]
    rwa [e] at h
  · have h := checkCollision_iff cols c bearSize (by norm_num [bearSize]) hcols
    have e : bearSize / 2 = 4 / 10 := by norm_num [bearSize]
    rwa [e] at h

theorem checkCollision_iff_box_of_half_size_witness :
    (checkCollision sampleIndex ⟨0, 0, 39⟩ (6 / 10) = true ↔
      ∃ b ∈ sampleIndex, (specQueryBox ⟨0, 0, 39⟩ ((6 / 10) / 2)).Meets b) ∧
    (checkCollision sampleIndex ⟨0, 0, 39⟩ princessSize = true ↔
      ∃ b ∈ sampleIndex, (specQueryBox ⟨0, 0, 39⟩ (3 / 10)).Meets b) ∧
    (checkCollision sampleIndex ⟨0, 0, 39⟩ bearSize = true ↔
      ∃ b ∈ sampleIndex, (specQueryBox ⟨0, 0, 39⟩ (4 / 10)).Meets b) :=
  checkCollision_iff_box_of_half_size sampleIndex ⟨0, 0, 39⟩ (6 / 10) (by norm_num)
    (by decide!)

/-- C5. On a frame that updates the bear, the turbo step fixes speed and
visuals from `turboTimer` (0 when the state variables are created on this
frame): if it is positive, the timer is decremented, the branches run with speed
`0.1 * 2.5 = 0.25` and the frame ends with the angry visuals (red fur, open
mouth); if it is 0, the branches run with speed 0.1 and the frame ends with the
normal visuals. -/
theorem turbo_step_speed_and_visuals (M : MathEnv) (cols : List Box3) (input : FrameInput)
    (s : Session)
    (hstarted : (princessMovement M cols input.keys s).gameStarted = true) :
    ((stateVariables s.bear).turboTimer > 0 →
      (turboStep (initState s.bear)).1 = 25 / 100 ∧
      (animate M cols input s).session.bear =
        bearMove M cols input.random (princessMovement M cols input.keys s).princess.position
          (25 / 100)
          { s.bear with
            furColor := angryColor, mouthScale := angryMouth,
            userData := some { stateVariables s.bear with
              turboTimer := (stateVariables s.bear).turboTimer - 1 } } ∧
      (animate M cols input s).session.bear.furColor = 0xFF0000 ∧
      (animate M cols input s).session.bear.mouthScale = ⟨1, 1, 1⟩) ∧
    ((stateVariables s.bear).turboTimer = 0 →
      (turboStep (initState s.bear)).1 = 1 / 10 ∧
      (animate M cols input s).session.bear =
        bearMove M cols input.random (princessMovement M cols input.keys s).princess.position
          (1 / 10)
          { s.bear with
            furColor := normalColor, mouthScale := normalMouth,
            userData := some (stateVariables s.bear) } ∧
      (animate M cols input s).session.bear.furColor = 0x8B4513 ∧
      (animate M cols input s).session.bear.mouthScale = ⟨1 / 10, 1 / 10, 1 / 10⟩) := by
  rw [animate_bear_of_started M cols input s hstarted]
  have hfast : bearSpeed * (5 / 2) = 25 / 100 := by norm_num [bearSpeed]
  have hslow : bearSpeed = 1 / 10 := rfl
  constructor
  · intro ht
    have hstep : turboStep (initState s.bear) = (25 / 100,
        { s.bear with
          furColor := angryColor, mouthScale := angryMouth,
          userData := some { stateVariables s.bear with
            turboTimer := (stateVariables s.bear).turboTimer - 1 } }) := by
      simp [turboStep, initState, ht, hfast]
    have hlogic : bearLogic M cols input.random
        (princessMovement M cols input.keys s).princess.position s.bear =
        bearMove M cols input.random (princessMovement M cols input.keys s).princess.position
          (turboStep (initState s.bear)).1 (turboStep (initState s.bear)).2 := rfl
    rw [hlogic, hstep]
    exact ⟨rfl, rfl, (bearMove_visuals _ _ _ _ _ _).1, (bearMove_visuals _ _ _ _ _ _).2⟩
  · intro ht
    have hstep : turboStep (initState s.bear) = (1 / 10,
        { s.bear with
          furColor := normalColor, mouthScale := normalMouth,
          userData := some (stateVariables s.bear) }) := by
      simp [turboStep, initState, ht, hslow]
    have hlogic : bearLogic M cols input.random
        (princessMovement M cols input.keys s).princess.position s.bear =
        bearMove M cols input.random (princessMovement M cols input.keys s).princess.position
          (turboStep (initState s.bear)).1 (turboStep (initState s.bear)).2 := rfl
    rw [hlogic, hstep]
    exact ⟨rfl, rfl, (bearMove_visuals _ _ _ _ _ _).1, (bearMove_visuals _ _ _ _ _ _).2⟩

theorem turbo_step_speed_and_visuals_witness :
    ((turboStep (initState besideKeepSession.bear)).1 = 25 / 100 ∧
      (animate sampleMath sampleIndex ⟨noKeys, 1 / 3⟩ besideKeepSession).session.bear.furColor
        = 0xFF0000) ∧
    ((turboStep (initState southWallSession.bear)).1 = 1 / 10 ∧
      (animate sampleMath sampleIndex ⟨downKey, 0⟩ southWallSession).session.bear.furColor
        = 0x8B4513) :=
  ⟨⟨((turbo_step_speed_and_visuals sampleMath sampleIndex ⟨noKeys, 1 / 3⟩ besideKeepSession
        (by decide!)).1 (by decide!)).1,
    ((turbo_step_speed_and_visuals sampleMath sampleIndex ⟨noKeys, 1 / 3⟩ besideKeepSession
        (by decide!)).1 (by decide!)).2.2.1⟩,
   ⟨((turbo_step_speed_and_visuals sampleMath sampleIndex ⟨downKey, 0⟩ southWallSession
        (by decide!)).2 (by decide!)).1,
    ((turbo_step_speed_and_visuals sampleMath sampleIndex ⟨downKey, 0⟩ southWallSession
        (by decide!)).2 (by decide!)).2.2.1⟩⟩

/-- C6. Princess and bear start farther apart than 1.5 (as `Math.sqrt` measures
it). Then on every frame of every run from the initial session, with the
positions taken after the movement of that frame, `location.reload()` is called
if and only if the distance between princess and bear is below 1.5. The test
itself is only evaluated once `gameStarted` is true; on the frames before that
nobody has moved, so the distance is the initial one and the outcome is the
same as if it had been evaluated. -/
theorem reload_iff_within_reach (M : MathEnv) (cols : List Box3)
    (hfar : 3 / 2 ≤ initialSession.princess.position.distanceTo M initialSession.bear.position)
    (inputs : List FrameInput) (input : FrameInput) :
    (animate M cols input (runFrames M cols inputs initialSession)).reload = true ↔
      (animate M cols input (runFrames M cols inputs initialSession)).session.princess.position.distanceTo
        M (animate M cols input (runFrames M cols inputs initialSession)).session.bear.position
        < 3 / 2 := by
  by_cases hs : (princessMovement M cols input.keys
      (runFrames M cols inputs initialSession)).gameStarted = true
  · simp [animate, hs]
  · have hs' : (princessMovement M cols input.keys
        (runFrames M cols inputs initialSession)).gameStarted = false := by simpa using hs
    obtain ⟨h0, hp, hb, hr⟩ := animate_of_not_started M cols input _ hs'
    obtain ⟨ip, ib⟩ := runFrames_of_not_started M cols inputs h0
    rw [hr, hp, hb, ip, ib]
    simp only [Bool.false_eq_true, false_iff, not_lt]
    exact hfar

theorem reload_iff_within_reach_witness :
    (animate sampleMath sampleIndex ⟨noKeys, 0⟩
        (runFrames sampleMath sampleIndex [⟨downKey, 0⟩, ⟨noKeys, 0⟩] initialSession)).reload = true ↔
      (animate sampleMath sampleIndex ⟨noKeys, 0⟩
        (runFrames sampleMath sampleIndex [⟨downKey, 0⟩, ⟨noKeys, 0⟩]
          initialSession)).session.princess.position.distanceTo
        sampleMath (animate sampleMath sampleIndex ⟨noKeys, 0⟩
          (runFrames sampleMath sampleIndex [⟨downKey, 0⟩, ⟨noKeys, 0⟩]
            initialSession)).session.bear.position
        < 3 / 2 :=
  reload_iff_within_reach sampleMath sampleIndex (by decide!) [⟨downKey, 0⟩, ⟨noKeys, 0⟩]
    ⟨noKeys, 0⟩

/-- C7. A frame at whose bear-update point `gameStarted` is false leaves the
bear untouched: position, state variables (set or unset), timers, everything.
Hence after any sequence of frames from the initial session that ends with
`gameStarted` still false (the flag is never cleared, so it was false all
along), the bear is as created, at `(10, 0, 10)`. -/
theorem bear_dormant_until_started (M : MathEnv) (cols : List Box3) :
    (∀ (input : FrameInput) (s : Session),
      (princessMovement M cols input.keys s).gameStarted = false →
        (animate M cols input s).session.bear = s.bear) ∧
    (∀ inputs : List FrameInput,
      (runFrames M cols inputs initialSession).gameStarted = false →
        (runFrames M cols inputs initialSession).bear.position = ⟨10, 0, 10⟩ ∧
        (runFrames M cols inputs initialSession).bear = initialSession.bear) := by
  constructor
  · intro input s h
    exact (animate_of_not_started M cols input s h).2.2.1
  · intro inputs h
    have hb := (runFrames_of_not_started M cols inputs h).2
    exact ⟨by rw [hb]; rfl, hb⟩

theorem bear_dormant_until_started_witness :
    (animate sampleMath sampleIndex ⟨downKey, 0⟩
      { southWallSession with gameStarted := false }).session.bear = southWallSession.bear ∧
    (runFrames sampleMath sampleIndex [⟨noKeys, 0⟩, ⟨noKeys, 1 / 2⟩] initialSession).bear.position
      = ⟨10, 0, 10⟩ :=
  ⟨(bear_dormant_until_started sampleMath sampleIndex).1 ⟨downKey, 0⟩
      { southWallSession with gameStarted := false } (by decide!),
   ((bear_dormant_until_started sampleMath sampleIndex).2 [⟨noKeys, 0⟩, ⟨noKeys, 1 / 2⟩]
      (by decide!)).1⟩

/-- C8, as stated, fails: with ArrowUp and ArrowDown held together on the first
frame the candidate is the princess's own position, it is not blocked, and so
`gameStarted` becomes true and the bear is updated (its state variables are
created and it moves) although the princess's position has never changed. -/
theorem started_without_position_change :
    initialSession.gameStarted = false ∧
    (animate sampleMath sampleIndex ⟨upAndDownKeys, 0⟩ initialSession).session.gameStarted = true ∧
    (animate sampleMath sampleIndex ⟨upAndDownKeys, 0⟩ initialSession).session.princess.position
      = initialSession.princess.position ∧
    (animate sampleMath sampleIndex ⟨upAndDownKeys, 0⟩ initialSession).session.bear.userData
      ≠ none ∧
    (animate sampleMath sampleIndex ⟨upAndDownKeys, 0⟩ initialSession).session.bear.position
      ≠ initialSession.bear.position := by
  refine ⟨rfl, by decide!, by decide!, by decide!, by decide!⟩

/-- C8, amended. From the initial session, `gameStarted` is true, or the bear
differs in any way from the bear as created, only on or after a frame on which
an arrow key was held and `checkCollision(nextPos, 0.6)` was false for the
candidate of that frame, `gameStarted` being false until that frame. (The
candidate is committed on that frame; with opposing keys it may equal the
position the princess already had.) -/
theorem started_only_after_unblocked_candidate (M : MathEnv) (cols : List Box3)
    (inputs : List FrameInput)
    (h : (runFrames M cols inputs initialSession).gameStarted = true ∨
      (runFrames M cols inputs initialSession).bear ≠ initialSession.bear) :
    ∃ (pre : List FrameInput) (input : FrameInput) (post : List FrameInput),
      inputs = pre ++ input :: post ∧
      (runFrames M cols pre initialSession).gameStarted = false ∧
      (input.keys.ArrowUp = true ∨ input.keys.ArrowDown = true ∨
        input.keys.ArrowLeft = true ∨ input.keys.ArrowRight = true) ∧
      checkCollision cols
        (princessNextPos input.keys (runFrames M cols pre initialSession).princess.position)
        (6 / 10) = false ∧
      (runFrames M cols (pre ++ [input]) initialSession).gameStarted = true := by
  have hstarted : (runFrames M cols inputs initialSession).gameStarted = true := by
    rcases h with h | h
    · exact h
    · by_contra hn
      exact h (runFrames_of_not_started M cols inputs (by simpa using hn)).2
  clear h
  induction inputs using List.reverseRecOn with
  | nil => exact absurd hstarted (by simp [runFrames, initialSession])
  | append_singleton pre input ih =>
    by_cases hpre : (runFrames M cols pre initialSession).gameStarted = true
    · obtain ⟨p, i, q, hsplit, h1, h2, h3, h4⟩ := ih hpre
      exact ⟨p, i, q ++ [input], by simp [hsplit], h1, h2, h3, h4⟩
    · have hfalse : (runFrames M cols pre initialSession).gameStarted = false := by
        simpa using hpre
      have hstep := hstarted
      rw [runFrames_snoc, animate_gameStarted, princessMovement_gameStarted] at hstep
      rcases hstep with hstep | ⟨hmoved, hfree⟩
      · exact absurd hstep hpre
      · exact ⟨pre, input, [], rfl, hfalse, (princessMoved_eq_true input.keys).1 hmoved,
          hfree, hstarted⟩

theorem started_only_after_unblocked_candidate_witness :
    ∃ (pre : List FrameInput) (input : FrameInput) (post : List FrameInput),
      [(⟨noKeys, 0⟩ : FrameInput), ⟨upAndDownKeys, 0⟩, ⟨upKey, 0⟩] = pre ++ input :: post ∧
      (runFrames sampleMath sampleIndex pre initialSession).gameStarted = false ∧
      (input.keys.ArrowUp = true ∨ input.keys.ArrowDown = true ∨
        input.keys.ArrowLeft = true ∨ input.keys.ArrowRight = true) ∧
      checkCollision sampleIndex
        (princessNextPos input.keys
          (runFrames sampleMath sampleIndex pre initialSession).princess.position)
        (6 / 10) = false ∧
      (runFrames sampleMath sampleIndex (pre ++ [input]) initialSession).gameStarted = true :=
  started_only_after_unblocked_candidate sampleMath sampleIndex
    [⟨noKeys, 0⟩, ⟨upAndDownKeys, 0⟩, ⟨upKey, 0⟩] (Or.inl (by decide!))

/-- C9. Start from any session whose bear has the initial chase state (CHASE,
`unstickTimer = 0`, `turboTimer = 0`; this is what the first update creates,
so the initial session is one). After any sequence of frames, for any collision
index, key presses and random draws, and hence any collision outcomes,
`unstickTimer ≥ 0` and `turboTimer ≥ 0`. -/
theorem timers_nonnegative (M : MathEnv) (cols : List Box3) (inputs : List FrameInput)
    (s : Session)
    (hstate : (stateVariables s.bear).state = ChaseState.CHASE)
    (hunstick : (stateVariables s.bear).unstickTimer = 0)
    (hturbo : (stateVariables s.bear).turboTimer = 0) :
    0 ≤ (stateVariables (runFrames M cols inputs s).bear).unstickTimer ∧
    0 ≤ (stateVariables (runFrames M cols inputs s).bear).turboTimer := by
  have h0 : TimersOk (stateVariables s.bear) := by
    refine ⟨by omega, by omega, ?_⟩
    intro h
    rw [hstate] at h
    cases h
  have h := runFrames_timersOk M cols inputs s h0
  exact ⟨h.1, h.2.1⟩

theorem timers_nonnegative_witness :
    0 ≤ (stateVariables (runFrames sampleMath sampleIndex
      [⟨upKey, 0⟩, ⟨noKeys, 1 / 2⟩, ⟨upAndDownKeys, 1 / 3⟩] initialSession).bear).unstickTimer ∧
    0 ≤ (stateVariables (runFrames sampleMath sampleIndex
      [⟨upKey, 0⟩, ⟨noKeys, 1 / 2⟩, ⟨upAndDownKeys, 1 / 3⟩] initialSession).bear).turboTimer :=
  timers_nonnegative sampleMath sampleIndex
    [⟨upKey, 0⟩, ⟨noKeys, 1 / 2⟩, ⟨upAndDownKeys, 1 / 3⟩] initialSession rfl rfl rfl

/-- C10, as stated, fails: the bear is in CHASE with `turboTimer = 160`, its
candidate move runs into the keep, and the frame ends with `turboTimer = 180`,
not 159. -/
theorem turbo_reset_on_blocked_chase :
    besideKeepSession.gameStarted = true ∧
    besideKeepSession.bear.userData.map (fun ud => (ud.state, ud.turboTimer))
      = some (ChaseState.CHASE, 160) ∧
    (animate sampleMath sampleIndex ⟨noKeys, 1 / 3⟩ besideKeepSession).session.bear.userData.map
      (fun ud => (ud.state, ud.turboTimer)) = some (ChaseState.UNSTICK, 180) ∧
    (180 : Int) ≠ 160 - 1 := by
  refine ⟨rfl, rfl, by decide!, by decide⟩

/-- C10, amended. On a frame that updates the bear with `turboTimer` positive at
the start, `turboTimer` at the end is its starting value minus 1 in UNSTICK
(for either collision outcome) and in CHASE when the candidate move is not
blocked; in CHASE with a blocked candidate it is 180. -/
theorem turbo_decrement_unless_blocked_chase (M : MathEnv) (cols : List Box3)
    (input : FrameInput) (s : Session)
    (hstarted : (princessMovement M cols input.keys s).gameStarted = true)
    (hturbo : (stateVariables s.bear).turboTimer > 0) :
    ((stateVariables s.bear).state = ChaseState.UNSTICK →
      (stateVariables (animate M cols input s).session.bear).turboTimer =
        (stateVariables s.bear).turboTimer - 1) ∧
    ((stateVariables s.bear).state = ChaseState.CHASE →
      checkCollision cols
        (chaseTargetPos M (princessMovement M cols input.keys s).princess.position
          s.bear.position (25 / 100)) (8 / 10) = false →
      (stateVariables (animate M cols input s).session.bear).turboTimer =
        (stateVariables s.bear).turboTimer - 1) ∧
    ((stateVariables s.bear).state = ChaseState.CHASE →
      checkCollision cols
        (chaseTargetPos M (princessMovement M cols input.keys s).princess.position
          s.bear.position (25 / 100)) (8 / 10) = true →
      (stateVariables (animate M cols input s).session.bear).turboTimer = 180) := by
  rw [animate_bear_of_started M cols input s hstarted]
  have h8 : bearSize = 8 / 10 := rfl
  have hfast : bearSpeed * (5 / 2) = 25 / 100 := by norm_num [bearSpeed]
  generalize hud : stateVariables s.bear = ud at hturbo
  rcases ud with ⟨st, ut, tt, dir⟩
  simp only at hturbo
  refine ⟨?_, ?_, ?_⟩
  · intro hst
    simp only at hst
    subst hst
    simp only [bearLogic, bearMove, turboStep, initState, hud, hturbo, if_true]
    simp [stateVariables]
  · intro hst hfree
    simp only at hst
    subst hst
    simp only [bearLogic, bearMove, turboStep, initState, hud, hturbo, if_true, h8, hfast,
      hfree]
    simp [stateVariables]
  · intro hst hblocked
    simp only at hst
    subst hst
    simp only [bearLogic, bearMove, turboStep, initState, hud, hturbo, if_true, h8, hfast,
      hblocked]
    simp [stateVariables]

theorem turbo_decrement_unless_blocked_chase_witness :
    (stateVariables (animate sampleMath sampleIndex ⟨noKeys, 1 / 3⟩
        unstickSession).session.bear).turboTimer = (stateVariables unstickSession.bear).turboTimer - 1 ∧
    (stateVariables (animate sampleMath sampleIndex ⟨noKeys, 1 / 3⟩
        besideKeepSession).session.bear).turboTimer = 180 :=
  ⟨(turbo_decrement_unless_blocked_chase sampleMath sampleIndex ⟨noKeys, 1 / 3⟩ unstickSession
      (by decide!) (by decide!)).1 (by decide!),
   (turbo_decrement_unless_blocked_chase sampleMath sampleIndex ⟨noKeys, 1 / 3⟩ besideKeepSession
      (by decide!) (by decide!)).2.2 (by decide!) (by decide!)⟩

/-- C11. Numbers are exact. Take a frame that updates the bear while it is in
CHASE, with the target (the princess after her move of the frame) at another
position than the bear and the candidate not blocked; `len` is the divisor
`length() || 1` of `normalize` and `speed` the speed of the frame, 0.1 or 0.25.
The bear's new position is its old position plus `speed × (target - self) / len`,
a positive multiple of `target - self`, and the displacement has squared length
`speed²` exactly when `len² = |target - self|²`. So when `Math.sqrt` returns the
exact root of the squared distance, the new position is the old one plus
`speed × (target - self) / |target - self|` and the displacement has length
exactly `speed`. -/
theorem chase_step_along_unit_direction (M : MathEnv) (cols : List Box3) (input : FrameInput)
    (s : Session) (target v : Vector3) (speed len : ℚ)
    (htarget : target = (princessMovement M cols input.keys s).princess.position)
    (hv : v = Vector3.subVectors target s.bear.position)
    (hspeed : speed = (turboStep (initState s.bear)).1)
    (hlen : len = if v.length M = 0 then 1 else v.length M)
    (hstarted : (princessMovement M cols input.keys s).gameStarted = true)
    (hchase : (stateVariables s.bear).state = ChaseState.CHASE)
    (hne : target ≠ s.bear.position)
    (hfree : checkCollision cols (chaseTargetPos M target s.bear.position speed) (8 / 10) = false)
    (hnonneg : 0 ≤ v.length M) :
    (speed = 1 / 10 ∨ speed = 25 / 100) ∧
    (animate M cols input s).session.bear.position =
      s.bear.position.add ((v.divideScalar len).multiplyScalar speed) ∧
    (∃ k : ℚ, 0 < k ∧
      (animate M cols input s).session.bear.position.sub s.bear.position = v.multiplyScalar k) ∧
    ((animate M cols input s).session.bear.position.distanceToSquared s.bear.position
        = speed * speed ↔
      len * len = v.x * v.x + v.y * v.y + v.z * v.z) ∧
    (v.length M * v.length M = v.x * v.x + v.y * v.y + v.z * v.z →
      len = v.length M ∧
      (animate M cols input s).session.bear.position =
        s.bear.position.add ((v.divideScalar (v.length M)).multiplyScalar speed) ∧
      (animate M cols input s).session.bear.position.distanceToSquared s.bear.position
        = speed * speed) := by
  have hsp : speed = 1 / 10 ∨ speed = 25 / 100 := by
    rw [hspeed]
    exact turboStep_speed s.bear
  have hspos : 0 < speed := by
    rcases hsp with h | h <;> rw [h] <;> norm_num
  have hd : 0 < v.x * v.x + v.y * v.y + v.z * v.z := by
    rw [hv]
    exact subVectors_sq_pos target s.bear.position hne
  have hlenpos : 0 < len := by
    rw [hlen]
    split_ifs with h0
    · norm_num
    · exact lt_of_le_of_ne hnonneg (Ne.symm h0)
  have hlen0 : len ≠ 0 := ne_of_gt hlenpos
  have hpos : (animate M cols input s).session.bear.position =
      s.bear.position.add ((v.divideScalar len).multiplyScalar speed) := by
    rw [animate_bear_of_started M cols input s hstarted, ← htarget,
      bearLogic_position_of_chase_free M cols input.random target s.bear hchase
        (by rw [← hspeed]; exact hfree),
      ← hspeed]
    simp only [chaseTargetPos, Vector3.normalize]
    rw [← hv, ← hlen]
  have hsq : (animate M cols input s).session.bear.position.distanceToSquared s.bear.position =
      speed * speed * (v.x * v.x + v.y * v.y + v.z * v.z) / (len * len) := by
    rw [hpos]
    simp only [Vector3.add, Vector3.distanceToSquared, Vector3.divideScalar,
      Vector3.multiplyScalar]
    field_simp
    ring
  have hiff : (animate M cols input s).session.bear.position.distanceToSquared s.bear.position
        = speed * speed ↔
      len * len = v.x * v.x + v.y * v.y + v.z * v.z := by
    rw [hsq, div_eq_iff (mul_ne_zero hlen0 hlen0)]
    constructor
    · intro h
      have h2 : speed * speed * (v.x * v.x + v.y * v.y + v.z * v.z - len * len) = 0 := by
        linarith
      rcases mul_eq_zero.1 h2 with h3 | h3
      · exact absurd h3 (mul_ne_zero (ne_of_gt hspos) (ne_of_gt hspos))
      · linarith
    · intro h
      rw [h]
  refine ⟨hsp, hpos, ⟨speed / len, div_pos hspos hlenpos, ?_⟩, hiff, ?_⟩
  · rw [hpos]
    simp only [Vector3.add, Vector3.sub, Vector3.divideScalar, Vector3.multiplyScalar,
      Vector3.mk.injEq]
    refine ⟨?_, ?_, ?_⟩ <;> field_simp <;> ring
  · intro hexact
    have hl : v.length M ≠ 0 := by
      intro h0
      rw [h0] at hexact
      linarith
    have hlen' : len = v.length M := by
      rw [hlen, if_neg hl]
    refine ⟨hlen', ?_, ?_⟩
    · rw [← hlen']
      exact hpos
    · rw [hiff, hlen']
      exact hexact

theorem chase_step_along_unit_direction_witness :
    (animate sampleMath sampleIndex ⟨noKeys, 0⟩ openGroundSession).session.bear.position =
      (⟨10, 0, 10⟩ : Vector3).add
        (((⟨3, 0, 4⟩ : Vector3).divideScalar 5).multiplyScalar (1 / 10)) ∧
    (animate sampleMath sampleIndex ⟨noKeys, 0⟩
      openGroundSession).session.bear.position.distanceToSquared ⟨10, 0, 10⟩
      = (1 / 10) * (1 / 10) :=
  ⟨(chase_step_along_unit_direction sampleMath sampleIndex ⟨noKeys, 0⟩ openGroundSession
      ⟨13, 0, 14⟩ ⟨3, 0, 4⟩ (1 / 10) 5 (by decide!) (by decide!) (by decide!) (by decide!)
      (by decide!) (by decide!) (by decide!) (by decide!) (by decide!)).2.1,
   ((chase_step_along_unit_direction sampleMath sampleIndex ⟨noKeys, 0⟩ openGroundSession
      ⟨13, 0, 14⟩ ⟨3, 0, 4⟩ (1 / 10) 5 (by decide!) (by decide!) (by decide!) (by decide!)
      (by decide!) (by decide!) (by decide!) (by decide!) (by decide!)).2.2.2.2
      (by decide!)).2.2⟩

/-- C12. Start in the state a blocked CHASE move produces, with the game
started: UNSTICK, `unstickTimer = 20`, `turboTimer = 180`. Whatever the
collision index, the keys and the random draws of the following frames, and so
whatever their collision outcomes, every frame updates the bear, the bear is in
UNSTICK after each of the first 19 frames and in CHASE after the 20th, with
`unstickTimer = 0` and `turboTimer = 160` then, so that the next frame, the
first in CHASE, runs at the turbo speed 0.25. -/
theorem unstick_episode_lasts_twenty_frames (M : MathEnv) (cols : List Box3) (s : Session)
    (ud : UserData) (inputs : List FrameInput)
    (hstarted : s.gameStarted = true) (hud : s.bear.userData = some ud)
    (hst : ud.state = ChaseState.UNSTICK) (hut : ud.unstickTimer = 20)
    (htt : ud.turboTimer = 180) :
    (inputs.length ≤ 20 → (runFrames M cols inputs s).gameStarted = true) ∧
    (inputs.length ≤ 19 →
      (stateVariables (runFrames M cols inputs s).bear).state = ChaseState.UNSTICK ∧
      (stateVariables (runFrames M cols inputs s).bear).unstickTimer = 20 - inputs.length ∧
      (stateVariables (runFrames M cols inputs s).bear).turboTimer = 180 - inputs.length) ∧
    (inputs.length = 20 →
      (stateVariables (runFrames M cols inputs s).bear).state = ChaseState.CHASE ∧
      (stateVariables (runFrames M cols inputs s).bear).unstickTimer = 0 ∧
      (stateVariables (runFrames M cols inputs s).bear).turboTimer = 160 ∧
      (turboStep (initState (runFrames M cols inputs s).bear)).1 = 25 / 100) := by
  refine ⟨?_, ?_, ?_⟩
  · intro hlen
    exact (runFrames_episode M cols s ud hstarted hud hst hut htt inputs hlen).1
  · intro hlen
    obtain ⟨_, ud1, hud1, h1, h2, h3⟩ :=
      runFrames_episode M cols s ud hstarted hud hst hut htt inputs (by omega)
    have hsv : stateVariables (runFrames M cols inputs s).bear = ud1 := by
      simp [stateVariables, hud1]
    rw [hsv]
    exact ⟨by rw [h3, if_neg (by omega)], h1, h2⟩
  · intro hlen
    obtain ⟨_, ud1, hud1, h1, h2, h3⟩ :=
      runFrames_episode M cols s ud hstarted hud hst hut htt inputs (by omega)
    have hsv : stateVariables (runFrames M cols inputs s).bear = ud1 := by
      simp [stateVariables, hud1]
    have hfast : bearSpeed * (5 / 2) = 25 / 100 := by norm_num [bearSpeed]
    have ht : ud1.turboTimer = 160 := by rw [h2, hlen]; norm_num
    refine ⟨by rw [hsv, h3, if_pos hlen], by rw [hsv, h1, hlen]; norm_num, by rw [hsv, ht], ?_⟩
    simp [turboStep, initState, hsv, ht, hfast]

theorem unstick_episode_lasts_twenty_frames_witness :
    (stateVariables (runFrames sampleMath sampleIndex (List.replicate 19 ⟨noKeys, 1 / 3⟩)
      episodeStartSession).bear).state = ChaseState.UNSTICK ∧
    (stateVariables (runFrames sampleMath sampleIndex (List.replicate 20 ⟨noKeys, 1 / 3⟩)
      episodeStartSession).bear).state = ChaseState.CHASE ∧
    (stateVariables (runFrames sampleMath sampleIndex (List.replicate 20 ⟨noKeys, 1 / 3⟩)
      episodeStartSession).bear).turboTimer = 160 :=
  ⟨((unstick_episode_lasts_twenty_frames sampleMath sampleIndex episodeStartSession
      { state := ChaseState.UNSTICK, unstickTimer := 20, turboTimer := 180,
        unstickDir := ⟨0, 0, 1⟩ }
      (List.replicate 19 ⟨noKeys, 1 / 3⟩) rfl rfl rfl rfl rfl).2.1 (by simp)).1,
   ((unstick_episode_lasts_twenty_frames sampleMath sampleIndex episodeStartSession
      { state := ChaseState.UNSTICK, unstickTimer := 20, turboTimer := 180,
        unstickDir := ⟨0, 0, 1⟩ }
      (List.replicate 20 ⟨noKeys, 1 / 3⟩) rfl rfl rfl rfl rfl).2.2 (by simp)).1,
   ((unstick_episode_lasts_twenty_frames sampleMath sampleIndex episodeStartSession
      { state := ChaseState.UNSTICK, unstickTimer := 20, turboTimer := 180,
        unstickDir := ⟨0, 0, 1⟩ }
      (List.replicate 20 ⟨noKeys, 1 / 3⟩) rfl rfl rfl rfl rfl).2.2 (by simp)).2.2.1⟩

end BearWantsPrincess
